import Mathlib

/-!
Verification of the AutoML core (`backend/modeling/services.py`, class `MLService`)
against its natural-language specification.

Shallow embedding conventions:
* A pandas `DataFrame` is a list of named, typed columns; a cell is `Option Val`
  where `none` stands for a missing entry (`NaN`/`None`).
* Python floats are modelled as exact rationals `ℚ`; the IEEE infinities that the
  source manipulates explicitly (`np.inf`, `-np.inf`) get their own constructors.
  The floating-point square root used inside scikit-learn's `StandardScaler` is
  itself inexact; it is modelled by a rational square-root approximation.
* Fallible operations (dictionary lookups that can raise `KeyError`, scaler fits
  that can raise `ValueError`, functions whose body can raise) return `Option` or
  `Except`; a `none` / `.error` result models an uncaught Python exception.
* External collaborators (the LLM model-selection service, scikit-learn's `fit`,
  `cross_val_score`, the Optuna sampler, the joblib serializer) are modelled as
  parameters or as contracts, never as repository logic.
-/

namespace AutoML

/-- The pandas dtype of a column, as far as the source inspects it:
`object` / `category` (the two dtypes the source treats as categorical)
versus numeric (`np.number`). -/
inductive Dtype
  | object
  | category
  | numeric
deriving DecidableEq

/-- A non-missing cell value: a string, a finite float (modelled as `ℚ`),
or one of the two IEEE infinities that `preprocess_data` replaces explicitly. -/
inductive Val
  | str (s : String)
  | num (q : ℚ)
  | pinf
  | ninf
deriving DecidableEq

/-- One named, typed column; `none` cells are missing values. -/
structure Column where
  name : String
  dtype : Dtype
  cells : List (Option Val)
deriving DecidableEq

/-- A pandas DataFrame: an ordered sequence of named columns. -/
structure DataFrame where
  cols : List Column
deriving DecidableEq

/-- The column labels, in order (`df.columns`). -/
def DataFrame.names (df : DataFrame) : List String :=
  df.cols.map Column.name

/-- Column selection `df[name]`; `none` models the `KeyError` pandas raises
when the label is absent. -/
def DataFrame.getCol (df : DataFrame) (name : String) : Option Column :=
  df.cols.find? (fun c => c.name == name)

/-- `len(df)`: the number of rows (all columns of a DataFrame have equal length). -/
def DataFrame.nrows (df : DataFrame) : Nat :=
  match df.cols with
  | [] => 0
  | c :: _ => c.cells.length

/-- `len(df.columns)`. -/
def DataFrame.ncols (df : DataFrame) : Nat :=
  df.cols.length

/-- `len(series.unique())`: the number of distinct cell values, where all missing
markers collapse to a single `NaN` entry, exactly as `pandas.Series.unique`
keeps one `NaN` representative. -/
def uniqueCount (cells : List (Option Val)) : Nat :=
  cells.dedup.length

/-- `MLService.detect_problem_type(target_column, df)`:
classification when the target dtype is object/category, else classification
iff the target has at most 10 unique values, else regression.
`none` models the `KeyError` raised by `df[target_column]` on a missing label. -/
def detect_problem_type (target_column : String) (df : DataFrame) : Option String :=
  (df.getCol target_column).map fun target_data =>
    if target_data.dtype = Dtype.object ∨ target_data.dtype = Dtype.category then
      "classification"
    else if uniqueCount target_data.cells ≤ 10 then
      "classification"
    else
      "regression"

end AutoML

namespace AutoML

/-- Helper: the unique-value count of a cell list that contains a missing entry
is one more than the number of distinct non-missing values, because pandas
`unique` keeps a single `NaN` representative. -/
theorem uniqueCount_of_mem_none (cells : List (Option Val))
    (hmiss : (none : Option Val) ∈ cells) :
    uniqueCount cells = (cells.filterMap id).dedup.length + 1 := by
  have hcard : uniqueCount cells = cells.toFinset.card := by
    rw [uniqueCount, List.card_toFinset]
  have hcard2 : (cells.filterMap id).dedup.length = (cells.filterMap id).toFinset.card := by
    rw [List.card_toFinset]
  rw [hcard, hcard2]
  have hset : cells.toFinset =
      insert (none : Option Val) ((cells.filterMap id).toFinset.image Option.some) := by
    ext x
    cases x with
    | none =>
      simp [hmiss]
    | some a =>
      simp [List.mem_filterMap]
  rw [hset]
  rw [Finset.card_insert_of_not_mem (by simp)]
  rw [Finset.card_image_of_injective _ (Option.some_injective _)]

/-- C2. `detect_problem_type` returns "classification" when the target dtype is
non-numeric (object/category), returns "classification" when the target is
numeric with at most 10 unique values, and returns "regression" when the target
is numeric with more than 10 unique values; in particular a numeric target with
exactly 10 unique values is classified and one with 11 is regressed. -/
theorem claim_C2 (target_column : String) (df : DataFrame) (col : Column)
    (h : df.getCol target_column = some col) :
    ((col.dtype = Dtype.object ∨ col.dtype = Dtype.category) →
        detect_problem_type target_column df = some "classification") ∧
    (col.dtype = Dtype.numeric →
      (uniqueCount col.cells ≤ 10 →
          detect_problem_type target_column df = some "classification") ∧
      (10 < uniqueCount col.cells →
          detect_problem_type target_column df = some "regression")) := by
  unfold detect_problem_type
  rw [h]
  simp only [Option.map_some']
  refine ⟨fun hd => ?_, fun hd => ?_⟩
  · rw [if_pos hd]
  · have hnp : ¬ (col.dtype = Dtype.object ∨ col.dtype = Dtype.category) := by
      rw [hd]; decide
    refine ⟨fun hle => ?_, fun hgt => ?_⟩
    · rw [if_neg hnp, if_pos hle]
    · rw [if_neg hnp, if_neg (Nat.not_le.mpr hgt)]

/-- A numeric target with the 10 distinct values 0..9, no missing entries. -/
def colBoundary10 : Column :=
  ⟨"t", Dtype.numeric, (List.range 10).map (fun i => some (Val.num i))⟩

/-- A numeric target with the 11 distinct values 0..10, no missing entries. -/
def colBoundary11 : Column :=
  ⟨"t", Dtype.numeric, (List.range 11).map (fun i => some (Val.num i))⟩

def dfBoundary10 : DataFrame := ⟨[colBoundary10]⟩

def dfBoundary11 : DataFrame := ⟨[colBoundary11]⟩

/-- Witness for C2: at the boundary, a numeric target with exactly 10 distinct
values yields "classification" and one with 11 yields "regression". -/
theorem claim_C2_witness :
    detect_problem_type "t" dfBoundary10 = some "classification" ∧
    detect_problem_type "t" dfBoundary11 = some "regression" := by
  refine ⟨((claim_C2 "t" dfBoundary10 colBoundary10 rfl).2 rfl).1 (by decide),
          ((claim_C2 "t" dfBoundary11 colBoundary11 rfl).2 rfl).2 (by decide)⟩

/-- C10. For a numeric target containing a missing entry, the pandas `unique`
count used by `detect_problem_type` is the number of distinct non-missing values
plus one (the `NaN` representative), so a numeric target with exactly 10
distinct non-missing values plus a missing entry is classified "regression". -/
theorem claim_C10 (target_column : String) (df : DataFrame) (col : Column)
    (h : df.getCol target_column = some col)
    (hnum : col.dtype = Dtype.numeric)
    (hmiss : (none : Option Val) ∈ col.cells) :
    uniqueCount col.cells = (col.cells.filterMap id).dedup.length + 1 ∧
    ((col.cells.filterMap id).dedup.length = 10 →
      detect_problem_type target_column df = some "regression") := by
  have hu := uniqueCount_of_mem_none col.cells hmiss
  refine ⟨hu, fun h10 => ?_⟩
  unfold detect_problem_type
  rw [h]
  simp only [Option.map_some']
  have hnp : ¬ (col.dtype = Dtype.object ∨ col.dtype = Dtype.category) := by
    rw [hnum]; decide
  rw [if_neg hnp, if_neg (by rw [hu, h10]; decide)]

/-- A numeric target with the 10 distinct values 0..9 and one missing entry. -/
def colMiss10 : Column :=
  ⟨"t", Dtype.numeric, ((List.range 10).map (fun i => some (Val.num i))) ++ [none]⟩

def dfMiss10 : DataFrame := ⟨[colMiss10]⟩

/-- Witness for C10: 10 distinct non-missing values plus one missing entry give
11 unique values and hence "regression". -/
theorem claim_C10_witness :
    uniqueCount colMiss10.cells = 11 ∧
    detect_problem_type "t" dfMiss10 = some "regression" := by
  have h := claim_C10 "t" dfMiss10 colMiss10 rfl rfl (by decide)
  exact ⟨by rw [h.1]; decide, h.2 (by decide)⟩

/-- The fixed `suggestions` policy table of `MLService.suggest_models`: per
problem type, a curated model list per dataset-size bucket and per
dimensionality bucket. `none` models the `KeyError` a Python dictionary raises
on an unknown key. -/
def model_suggestions (problem_type bucket : String) : Option (List String) :=
  if problem_type = "classification" then
    if bucket = "small_dataset" then
      some ["logistic_regression", "decision_tree", "knn"]
    else if bucket = "medium_dataset" then
      some ["random_forest", "xgboost", "lightgbm", "svm"]
    else if bucket = "large_dataset" then
      some ["xgboost", "lightgbm", "catboost", "gradient_boosting"]
    else if bucket = "high_dimensions" then
      some ["logistic_regression", "svm", "random_forest"]
    else if bucket = "low_dimensions" then
      some ["knn", "decision_tree", "ada_boost"]
    else none
  else if problem_type = "regression" then
    if bucket = "small_dataset" then
      some ["linear_regression", "ridge", "lasso"]
    else if bucket = "medium_dataset" then
      some ["random_forest", "xgboost", "lightgbm"]
    else if bucket = "large_dataset" then
      some ["xgboost", "lightgbm", "catboost"]
    else if bucket = "high_dimensions" then
      some ["ridge", "lasso", "elastic_net"]
    else if bucket = "low_dimensions" then
      some ["linear_regression", "svm", "knn"]
    else none
  else none

/-- The dataset-size bucket of `suggest_models`: small below 1000 rows, medium
below 10000, large otherwise. -/
def size_category (dataset_size : ℤ) : String :=
  if dataset_size < 1000 then "small_dataset"
  else if dataset_size < 10000 then "medium_dataset"
  else "large_dataset"

/-- The dimensionality bucket of `suggest_models`: high above 50 features,
low otherwise. -/
def dim_category (feature_count : ℤ) : String :=
  if 50 < feature_count then "high_dimensions"
  else "low_dimensions"

/-- `MLService.suggest_models(problem_type, dataset_size, feature_count)`:
the concatenation of the size-bucket list and the dimensionality-bucket list,
deduplicated (`list(set(...))`; the arbitrary Python set order is modelled by
`List.dedup`). `none` models the `KeyError` on an unknown problem type. -/
def suggest_models (problem_type : String) (dataset_size feature_count : ℤ) :
    Option (List String) := do
  let ls ← model_suggestions problem_type (size_category dataset_size)
  let ld ← model_suggestions problem_type (dim_category feature_count)
  pure (ls ++ ld).dedup

theorem size_category_cases (n : ℤ) :
    size_category n = "small_dataset" ∨ size_category n = "medium_dataset" ∨
      size_category n = "large_dataset" := by
  unfold size_category
  split_ifs <;> simp

theorem dim_category_cases (f : ℤ) :
    dim_category f = "high_dimensions" ∨ dim_category f = "low_dimensions" := by
  unfold dim_category
  split_ifs <;> simp

theorem model_suggestions_isSome (pt bucket : String)
    (hpt : pt = "classification" ∨ pt = "regression")
    (hb : bucket = "small_dataset" ∨ bucket = "medium_dataset" ∨
      bucket = "large_dataset" ∨ bucket = "high_dimensions" ∨
      bucket = "low_dimensions") :
    (model_suggestions pt bucket).isSome := by
  rcases hpt with h | h <;> subst h <;>
    rcases hb with h | h | h | h | h <;> subst h <;> decide

/-- C3. For either valid problem type and any row and feature counts,
`suggest_models` returns exactly the deduplicated union of the size-bucket list
and the dimensionality-bucket list of the fixed policy table: the result is
duplicate-free and contains a model iff one of the two bucket lists does.
The embedding is a pure function, so the result is reproducible and
side-effect-free by construction. -/
theorem claim_C3 (pt : String) (n f : ℤ)
    (hpt : pt = "classification" ∨ pt = "regression") :
    suggest_models pt n f =
      some (((model_suggestions pt (size_category n)).getD [] ++
             (model_suggestions pt (dim_category f)).getD []).dedup) ∧
    (((model_suggestions pt (size_category n)).getD [] ++
      (model_suggestions pt (dim_category f)).getD []).dedup).Nodup ∧
    (∀ m, m ∈ ((model_suggestions pt (size_category n)).getD [] ++
               (model_suggestions pt (dim_category f)).getD []).dedup ↔
      m ∈ (model_suggestions pt (size_category n)).getD [] ∨
        m ∈ (model_suggestions pt (dim_category f)).getD []) := by
  have hs : (model_suggestions pt (size_category n)).isSome :=
    model_suggestions_isSome pt _ hpt (by
      rcases size_category_cases n with h | h | h <;> rw [h] <;> simp)
  have hd : (model_suggestions pt (dim_category f)).isSome :=
    model_suggestions_isSome pt _ hpt (by
      rcases dim_category_cases f with h | h <;> rw [h] <;> simp)
  obtain ⟨ls, hls⟩ := Option.isSome_iff_exists.mp hs
  obtain ⟨ld, hld⟩ := Option.isSome_iff_exists.mp hd
  refine ⟨?_, ?_, ?_⟩
  · unfold suggest_models
    rw [hls, hld]
    simp
  · exact List.nodup_dedup _
  · intro m
    rw [List.mem_dedup, List.mem_append]

/-- Witness for C3 at the spec's example call `suggest_models("classification",
500, 20)`: the deduplicated union of the small-dataset and low-dimensions lists. -/
theorem claim_C3_witness :
    suggest_models "classification" 500 20 =
      some ["logistic_regression", "knn", "decision_tree", "ada_boost"] ∧
    (["logistic_regression", "knn", "decision_tree", "ada_boost"] :
        List String).Nodup := by
  have h := claim_C3 "classification" 500 20 (Or.inl rfl)
  exact ⟨by rw [h.1]; decide, by decide⟩

theorem suggest_models_isSome (pt : String)
    (hpt : pt = "classification" ∨ pt = "regression") (n f : ℤ) :
    (suggest_models pt n f).isSome := by
  have hs : (model_suggestions pt (size_category n)).isSome :=
    model_suggestions_isSome pt _ hpt (by
      rcases size_category_cases n with h | h | h <;> rw [h] <;> simp)
  have hd : (model_suggestions pt (dim_category f)).isSome :=
    model_suggestions_isSome pt _ hpt (by
      rcases dim_category_cases f with h | h <;> rw [h] <;> simp)
  obtain ⟨ls, hls⟩ := Option.isSome_iff_exists.mp hs
  obtain ⟨ld, hld⟩ := Option.isSome_iff_exists.mp hd
  unfold suggest_models
  rw [hls, hld]
  simp

theorem detect_problem_type_mem (target_column : String) (df : DataFrame)
    (pt : String) (h : detect_problem_type target_column df = some pt) :
    pt = "classification" ∨ pt = "regression" := by
  unfold detect_problem_type at h
  cases hc : df.getCol target_column with
  | none => rw [hc] at h; simp at h
  | some col =>
    rw [hc] at h
    simp only [Option.map_some', Option.some.injEq] at h
    split_ifs at h
    · exact Or.inl h.symm
    · exact Or.inl h.symm
    · exact Or.inr h.symm

/-- The structured `final_recommendation` of the advisory result. -/
structure Recommendation where
  best_model : String
  confidence : ℚ
deriving DecidableEq

/-- The structured result of `get_intelligent_model_suggestions`: a
recommended-models list, an analysis mapping, an evaluation mapping and a final
recommendation (mappings are modelled as ordered key-value pair lists). -/
structure Suggestions where
  recommended_models : List String
  analysis : List (String × String)
  evaluation : List (String × String)
  final_recommendation : Recommendation
deriving DecidableEq

/-- The fallback branch of `get_intelligent_model_suggestions`: detect the
problem type, re-suggest heuristically on `(len(df), len(df.columns) - 1)` and
flag the analysis field. `none` models an exception escaping the fallback
itself (`detect_problem_type` raises `KeyError` when the target is absent). -/
def fallbackSuggestions (df : DataFrame) (target_column : String) :
    Option Suggestions := do
  let problem_type ← detect_problem_type target_column df
  let ms ← suggest_models problem_type (df.nrows : ℤ) ((df.ncols : ℤ) - 1)
  pure { recommended_models := ms
         analysis := [("error", "Intelligent selection failed, using fallback")]
         evaluation := []
         final_recommendation := ⟨"random_forest", 1/2⟩ }

/-- `MLService.get_intelligent_model_suggestions(df, target_column)`. The
advisory collaborator (`self.model_selector.get_intelligent_suggestions`, an
external LLM service) is a parameter whose `.error` outcome models any raised
exception; the `except Exception` block of the source switches to the fallback.
A `none` result models an exception that escapes to the caller. -/
def get_intelligent_model_suggestions
    (selector : DataFrame → String → Except String Suggestions)
    (df : DataFrame) (target_column : String) : Option Suggestions :=
  match selector df target_column with
  | .ok r => some r
  | .error _ => fallbackSuggestions df target_column

/-- The analysis mapping of an optional advisory result (empty when absent). -/
def suggestionsAnalysis (o : Option Suggestions) : List (String × String) :=
  match o with
  | some r => r.analysis
  | none => []

/-- An advisory collaborator that always fails. -/
def selFail : DataFrame → String → Except String Suggestions :=
  fun _ _ => Except.error "boom"

/-- A dataset that does not contain the column "y". -/
def dfNoTarget : DataFrame := ⟨[⟨"x", Dtype.numeric, [some (Val.num 1)]⟩]⟩

/-- Counterexample to C4 as stated: when the advisory
collaborator fails and the target column is absent from the dataset, the
fallback's own `detect_problem_type` call raises `KeyError` (modelled by
`none`), so `get_intelligent_model_suggestions` does raise to the caller. -/
theorem claim_C4_counterexample :
    get_intelligent_model_suggestions selFail dfNoTarget "y" = none := rfl

/-- C4 (amended): provided the target column exists in the dataset, any failure
of the advisory collaborator is caught and replaced by the heuristic fallback
(`detect_problem_type` plus `suggest_models`), the call returns normally, and
the analysis field is flagged so the caller can tell a fallback occurred. -/
theorem claim_C4_amended
    (selector : DataFrame → String → Except String Suggestions)
    (df : DataFrame) (target_column : String) (e : String)
    (htgt : (df.getCol target_column).isSome)
    (hsel : selector df target_column = Except.error e) :
    (get_intelligent_model_suggestions selector df target_column).isSome ∧
    get_intelligent_model_suggestions selector df target_column =
      fallbackSuggestions df target_column ∧
    suggestionsAnalysis (get_intelligent_model_suggestions selector df target_column) =
      [("error", "Intelligent selection failed, using fallback")] := by
  obtain ⟨col, hcol⟩ := Option.isSome_iff_exists.mp htgt
  have hdet : ∃ pt, detect_problem_type target_column df = some pt := by
    unfold detect_problem_type
    rw [hcol]
    exact ⟨_, rfl⟩
  obtain ⟨pt, hpt⟩ := hdet
  have hptmem := detect_problem_type_mem _ _ _ hpt
  obtain ⟨ms, hms⟩ := Option.isSome_iff_exists.mp
    (suggest_models_isSome pt hptmem (df.nrows : ℤ) ((df.ncols : ℤ) - 1))
  have hget : get_intelligent_model_suggestions selector df target_column =
      fallbackSuggestions df target_column := by
    unfold get_intelligent_model_suggestions
    rw [hsel]
  have hfb : fallbackSuggestions df target_column =
      some { recommended_models := ms
             analysis := [("error", "Intelligent selection failed, using fallback")]
             evaluation := []
             final_recommendation := ⟨"random_forest", 1/2⟩ } := by
    unfold fallbackSuggestions
    simp only [hpt, hms, Option.some_bind, Option.bind_eq_bind]
    rfl
  refine ⟨?_, hget, ?_⟩
  · rw [hget, hfb]; rfl
  · rw [hget, hfb]; rfl

/-- A dataset containing the target column "y". -/
def dfWithTarget : DataFrame := ⟨[⟨"y", Dtype.numeric, [some (Val.num 1)]⟩]⟩

/-- Witness for the amended C4: with the target present and a failing advisory
collaborator, the call returns the flagged heuristic fallback. -/
theorem claim_C4_witness :
    (get_intelligent_model_suggestions selFail dfWithTarget "y").isSome ∧
    get_intelligent_model_suggestions selFail dfWithTarget "y" =
      fallbackSuggestions dfWithTarget "y" ∧
    suggestionsAnalysis (get_intelligent_model_suggestions selFail dfWithTarget "y") =
      [("error", "Intelligent selection failed, using fallback")] :=
  claim_C4_amended selFail dfWithTarget "y" "boom" (by decide) rfl

/-- The constructible model factories registered in `MLService.__init__`
(`self.models`), as opaque tags. -/
inductive ModelClass
  | randomForestClassifier
  | xgbClassifier
  | lgbmClassifier
  | catBoostClassifier
  | logisticRegression
  | svc
  | knnClassifier
  | decisionTreeClassifier
  | gradientBoostingClassifier
  | adaBoostClassifier
  | randomForestRegressor
  | xgbRegressor
  | lgbmRegressor
  | catBoostRegressor
  | linearRegression
  | ridge
  | lasso
  | elasticNet
  | svr
  | knnRegressor
  | decisionTreeRegressor
  | gradientBoostingRegressor
deriving DecidableEq

/-- The catalog `self.models[problem_type][model_name]`; `none` models the
`KeyError` raised at either dictionary level — the spec's `UnknownModelError`. -/
def models (problem_type model_name : String) : Option ModelClass :=
  if problem_type = "classification" then
    if model_name = "random_forest" then some ModelClass.randomForestClassifier
    else if model_name = "xgboost" then some ModelClass.xgbClassifier
    else if model_name = "lightgbm" then some ModelClass.lgbmClassifier
    else if model_name = "catboost" then some ModelClass.catBoostClassifier
    else if model_name = "logistic_regression" then some ModelClass.logisticRegression
    else if model_name = "svm" then some ModelClass.svc
    else if model_name = "knn" then some ModelClass.knnClassifier
    else if model_name = "decision_tree" then some ModelClass.decisionTreeClassifier
    else if model_name = "gradient_boosting" then some ModelClass.gradientBoostingClassifier
    else if model_name = "ada_boost" then some ModelClass.adaBoostClassifier
    else none
  else if problem_type = "regression" then
    if model_name = "random_forest" then some ModelClass.randomForestRegressor
    else if model_name = "xgboost" then some ModelClass.xgbRegressor
    else if model_name = "lightgbm" then some ModelClass.lgbmRegressor
    else if model_name = "catboost" then some ModelClass.catBoostRegressor
    else if model_name = "linear_regression" then some ModelClass.linearRegression
    else if model_name = "ridge" then some ModelClass.ridge
    else if model_name = "lasso" then some ModelClass.lasso
    else if model_name = "elastic_net" then some ModelClass.elasticNet
    else if model_name = "svm" then some ModelClass.svr
    else if model_name = "knn" then some ModelClass.knnRegressor
    else if model_name = "decision_tree" then some ModelClass.decisionTreeRegressor
    else if model_name = "gradient_boosting" then some ModelClass.gradientBoostingRegressor
    else none
  else none

/-- The `self.default_params` table; hyperparameter values (ints and floats in
the source) are modelled as `ℚ`. `.get(model_name, {})` yields `[]` on an
unknown name. -/
def default_params (model_name : String) : List (String × ℚ) :=
  if model_name = "random_forest" then [("n_estimators", 100), ("random_state", 42)]
  else if model_name = "xgboost" then [("n_estimators", 100), ("random_state", 42)]
  else if model_name = "lightgbm" then [("n_estimators", 100), ("random_state", 42)]
  else if model_name = "catboost" then [("iterations", 100), ("random_state", 42)]
  else if model_name = "logistic_regression" then [("random_state", 42)]
  else if model_name = "svm" then [("random_state", 42)]
  else if model_name = "knn" then [("n_neighbors", 5)]
  else if model_name = "decision_tree" then [("random_state", 42)]
  else if model_name = "gradient_boosting" then [("n_estimators", 100), ("random_state", 42)]
  else if model_name = "ada_boost" then [("n_estimators", 100), ("random_state", 42)]
  else if model_name = "linear_regression" then []
  else if model_name = "ridge" then [("alpha", 1)]
  else if model_name = "lasso" then [("alpha", 1)]
  else if model_name = "elastic_net" then [("alpha", 1), ("l1_ratio", 1/2)]
  else []

/-- A fitted estimator as the core observes it: its constructor tag, the
hyperparameters it was built with, and the two optional attributes inspected by
`get_feature_importance` (`feature_importances_` and `coef_`). The numeric fitting
itself belongs to the external ML libraries. -/
structure Model where
  cls : ModelClass
  params : List (String × ℚ)
  feature_importances : Option (List ℚ)
  coef : Option (List ℚ)
deriving DecidableEq

/-- The error taxonomy of the spec; `unknownModel` abstracts the `KeyError`
raised by the catalog lookup in `train_model`. -/
inductive MLError
  | unknownModel (problem_type model_name : String)
deriving DecidableEq

/-- `MLService.train_model(model_name, X_train, y_train, problem_type,
hyperparameters)`. The scikit-learn `fit` call is the external-library
parameter `fit`; the wall-clock `training_time` the source also returns is real
time and is not modelled. A `.error` result is an exception surfaced to the
caller (the source has no handler around the lookup). -/
def train_model
    (fit : ModelClass → List (String × ℚ) → List (List ℚ) → List ℚ → Model)
    (model_name : String) (X_train : List (List ℚ)) (y_train : List ℚ)
    (problem_type : String) (hyperparameters : Option (List (String × ℚ))) :
    Except MLError Model :=
  let hp := hyperparameters.getD (default_params model_name)
  match models problem_type model_name with
  | none => Except.error (MLError.unknownModel problem_type model_name)
  | some model_class => Except.ok (fit model_class hp X_train y_train)

/-- C5. Whenever the requested model identifier is absent from the catalog for
the given problem type, `train_model` fails with the spec's `UnknownModelError`
(the catalog lookup's `KeyError`), and the failure is surfaced to the caller
unchanged, for any training data and hyperparameters. -/
theorem claim_C5
    (fit : ModelClass → List (String × ℚ) → List (List ℚ) → List ℚ → Model)
    (model_name : String) (X_train : List (List ℚ)) (y_train : List ℚ)
    (problem_type : String) (hyperparameters : Option (List (String × ℚ)))
    (h : models problem_type model_name = none) :
    train_model fit model_name X_train y_train problem_type hyperparameters =
      Except.error (MLError.unknownModel problem_type model_name) := by
  unfold train_model
  rw [h]

/-- A trivial stand-in for the external `fit` call. -/
def fitW : ModelClass → List (String × ℚ) → List (List ℚ) → List ℚ → Model :=
  fun mc p _ _ => ⟨mc, p, none, none⟩

/-- Witness for C5: "ada_boost" exists only in the classification catalog, so
training it as a regression model surfaces `UnknownModelError`. -/
theorem claim_C5_witness :
    train_model fitW "ada_boost" [] [] "regression" none =
      Except.error (MLError.unknownModel "regression" "ada_boost") :=
  claim_C5 fitW "ada_boost" [] [] "regression" none (by decide)

/-- Stable descending insertion by mapped value: the Python
`sorted(..., key=lambda x: x[1], reverse=True)` of `get_feature_importance`. -/
def insertByValDesc (p : String × ℚ) : List (String × ℚ) → List (String × ℚ)
  | [] => [p]
  | q :: t => if q.2 < p.2 then p :: q :: t else q :: insertByValDesc p t

def sortByValDesc (l : List (String × ℚ)) : List (String × ℚ) :=
  l.foldr insertByValDesc []

/-- `dict(zip(keys, values))`: pairs are truncated to the shorter list; a
repeated key keeps its first position with its last value. -/
def dictZip (keys : List String) (values : List ℚ) : List (String × ℚ) :=
  (keys.zip values).foldl
    (fun acc p =>
      if acc.any (fun q => q.1 == p.1) then
        acc.map (fun q => if q.1 == p.1 then (q.1, p.2) else q)
      else acc ++ [p])
    []

/-- `MLService.get_feature_importance(model, feature_names)`: the native
importance vector if present, else absolute linear coefficients, else the empty
mapping; the result is sorted descending by weight. Total — it never raises. -/
def get_feature_importance (model : Model) (feature_names : List String) :
    List (String × ℚ) :=
  match model.feature_importances with
  | some importance => sortByValDesc (dictZip feature_names importance)
  | none =>
    match model.coef with
    | some c => sortByValDesc (dictZip feature_names (c.map abs))
    | none => []

/-- C9. On a model exposing neither a per-feature importance vector nor linear
coefficients, `get_feature_importance` returns the empty mapping for every
feature-name list; being a total function, it never raises. -/
theorem claim_C9 (model : Model) (feature_names : List String)
    (h1 : model.feature_importances = none) (h2 : model.coef = none) :
    get_feature_importance model feature_names = [] := by
  unfold get_feature_importance
  rw [h1, h2]

/-- A model with neither importance vector nor coefficients. -/
def bareModel : Model := ⟨ModelClass.knnClassifier, [("n_neighbors", 5)], none, none⟩

/-- Witness for C9. -/
theorem claim_C9_witness :
    get_feature_importance bareModel ["a", "b"] = [] :=
  claim_C9 bareModel ["a", "b"] rfl rfl

/-- The filesystem as `save_model` / `load_model` observe it: a mapping from
path to stored artifact. The joblib serializer is modelled as exact (its
contract: an artifact it wrote loads back to an equal object); `os.makedirs`
touches only directory structure, which the map model has no need of. -/
def Store := List (String × Model)

/-- `MLService.save_model(model, filepath)`: serialize to `filepath`,
overwriting silently (the newest entry for a path shadows older ones). -/
def save_model (model : Model) (filepath : String) (store : Store) : Store :=
  (filepath, model) :: store

/-- `MLService.load_model(filepath)`; `none` models the error raised when no
artifact exists at the path. -/
def load_model (filepath : String) (store : Store) : Option Model :=
  (store.find? (fun p => p.1 == filepath)).map (fun p => p.2)

/-- C7. Loading the artifact written by `save_model` round-trips: the loaded
model equals the saved one, hence every prediction observation (any function of
the model, evaluated at any fixed input) agrees exactly with the original
model's. -/
theorem claim_C7 (model : Model) (filepath : String) (store : Store)
    (predictObs : Model → List ℚ → ℚ) (x : List ℚ) :
    load_model filepath (save_model model filepath store) = some model ∧
    (load_model filepath (save_model model filepath store)).map
        (fun m => predictObs m x) = some (predictObs model x) := by
  have h : load_model filepath (save_model model filepath store) = some model := by
    unfold load_model save_model
    simp [List.find?]
  exact ⟨h, by rw [h]; rfl⟩

/-- One Optuna trial as the `objective` closure observes it: the sampler's
proposal for each named integer or float hyperparameter. -/
structure Trial where
  drawInt : String → ℤ
  drawFloat : String → ℚ

/-- `trial.suggest_int(name, low, high)`: the sampler always proposes inside
the bounds, encoded by clamping. -/
def suggest_int (t : Trial) (name : String) (low high : ℤ) : ℤ :=
  max low (min high (t.drawInt name))

/-- `trial.suggest_float(name, low, high)`. -/
def suggest_float (t : Trial) (name : String) (low high : ℚ) : ℚ :=
  max low (min high (t.drawFloat name))

/-- The outcome of one trial: the objective value reported to the study, the
hyperparameters the trial suggested (what `study.best_params` later exposes),
and the model the trial constructed and cross-validated, if any. -/
structure TrialResult where
  value : ℚ
  suggested : List (String × ℚ)
  fittedModel : Option (ModelClass × List (String × ℚ))
deriving DecidableEq

/-- The `objective(trial)` closure of `optimize_hyperparameters`: a bounded
search space for the random_forest / xgboost / lightgbm families, scored by a
3-fold cross-validation mean (the external scikit-learn call is the `cvMean`
parameter); any other family returns 0.0 before any model is built. `none`
models the `KeyError` of the catalog lookup for an invalid problem type. -/
def objective (model_name problem_type : String)
    (cvMean : ModelClass → List (String × ℚ) → ℚ) (t : Trial) :
    Option TrialResult :=
  if model_name = "random_forest" then
    let suggested : List (String × ℚ) :=
      [("n_estimators", (suggest_int t "n_estimators" 50 300 : ℚ)),
       ("max_depth", (suggest_int t "max_depth" 3 20 : ℚ)),
       ("min_samples_split", (suggest_int t "min_samples_split" 2 10 : ℚ))]
    let params := suggested ++ [("random_state", 42)]
    (models problem_type model_name).map fun mc =>
      ⟨cvMean mc params, suggested, some (mc, params)⟩
  else if model_name = "xgboost" then
    let suggested : List (String × ℚ) :=
      [("n_estimators", (suggest_int t "n_estimators" 50 300 : ℚ)),
       ("max_depth", (suggest_int t "max_depth" 3 10 : ℚ)),
       ("learning_rate", suggest_float t "learning_rate" (1/100) (3/10))]
    let params := suggested ++ [("random_state", 42)]
    (models problem_type model_name).map fun mc =>
      ⟨cvMean mc params, suggested, some (mc, params)⟩
  else if model_name = "lightgbm" then
    let suggested : List (String × ℚ) :=
      [("n_estimators", (suggest_int t "n_estimators" 50 300 : ℚ)),
       ("max_depth", (suggest_int t "max_depth" 3 10 : ℚ)),
       ("learning_rate", suggest_float t "learning_rate" (1/100) (3/10))]
    let params := suggested ++ [("random_state", 42)]
    (models problem_type model_name).map fun mc =>
      ⟨cvMean mc params, suggested, some (mc, params)⟩
  else
    some ⟨0, [], none⟩

/-- The maximizing trial of a study, ties broken by first-found; `none` models
`study.best_params` raising when no trial completed. -/
def bestTrial : List TrialResult → Option TrialResult
  | [] => none
  | r :: rest =>
    match bestTrial rest with
    | none => some r
    | some b => if r.value < b.value then some b else some r

/-- `MLService.optimize_hyperparameters(model_name, X_train, y_train,
problem_type, n_trials)`: run `n_trials` independent objective evaluations on
the trials proposed by the sampler (the Optuna TPE sampler is the external
`sampler` parameter) and return the suggested parameters of the best one.
An exception in any trial propagates (`study.optimize` re-raises). -/
def optimize_hyperparameters (model_name problem_type : String)
    (cvMean : ModelClass → List (String × ℚ) → ℚ) (sampler : Nat → Trial)
    (n_trials : Nat) : Option (List (String × ℚ)) := do
  let results ← (List.range n_trials).mapM
    (fun i => objective model_name problem_type cvMean (sampler i))
  (bestTrial results).map (fun b => b.suggested)

theorem mapM_const_some {α : Type} (c : α) (l : List Nat)
    (f : Nat → Option α) (hf : ∀ i, f i = some c) :
    l.mapM f = some (l.map fun _ => c) := by
  induction l with
  | nil => rfl
  | cons x t ih =>
    rw [List.mapM_cons, hf x, ih]
    rfl

theorem bestTrial_const (c : TrialResult) (l : List TrialResult)
    (hne : l ≠ []) (hc : ∀ x ∈ l, x = c) : bestTrial l = some c := by
  induction l with
  | nil => exact absurd rfl hne
  | cons r rest ih =>
    have hr : r = c := hc r (List.mem_cons_self r rest)
    unfold bestTrial
    cases hrest : bestTrial rest with
    | none => rw [hr]
    | some b =>
      have hbc : b = c := by
        have : rest ≠ [] := by
          intro hnil
          rw [hnil] at hrest
          exact Option.noConfusion hrest
        have := ih this (fun x hx => hc x (List.mem_cons_of_mem r hx))
        rw [hrest] at this
        exact (Option.some.injEq _ _).mp this
      rw [hr, hbc]
      simp

/-- C8. For any model identifier outside the three families with a defined
search space, every trial's objective is exactly zero with no model constructed
or fitted, and the optimization completes normally (for at least one trial)
with an empty best-parameter mapping instead of failing or producing a
meaningful score. -/
theorem claim_C8 (model_name problem_type : String)
    (cvMean : ModelClass → List (String × ℚ) → ℚ) (sampler : Nat → Trial)
    (n_trials : Nat)
    (hname : model_name ∉ (["random_forest", "xgboost", "lightgbm"] : List String))
    (hn : 0 < n_trials) :
    (∀ t : Trial, objective model_name problem_type cvMean t =
      some ⟨0, [], none⟩) ∧
    optimize_hyperparameters model_name problem_type cvMean sampler n_trials =
      some [] := by
  simp only [List.mem_cons, not_or] at hname
  obtain ⟨h1, h2, h3, -⟩ := hname
  have hobj : ∀ t : Trial, objective model_name problem_type cvMean t =
      some ⟨0, [], none⟩ := by
    intro t
    unfold objective
    rw [if_neg h1, if_neg h2, if_neg h3]
  refine ⟨hobj, ?_⟩
  unfold optimize_hyperparameters
  rw [mapM_const_some ⟨0, [], none⟩ _ _ (fun i => hobj (sampler i))]
  have hres : bestTrial ((List.range n_trials).map fun _ =>
      (⟨0, [], none⟩ : TrialResult)) = some ⟨0, [], none⟩ := by
    apply bestTrial_const
    · intro hmap
      have hlen := congrArg List.length hmap
      simp at hlen
      omega
    · intro x hx
      rcases List.mem_map.mp hx with ⟨i, -, hxe⟩
      exact hxe.symm
  simp only [Option.bind_eq_bind, Option.some_bind]
  rw [hres]
  rfl

def samplerW : Nat → Trial := fun _ => ⟨fun _ => 0, fun _ => 0⟩

def cvMeanW : ModelClass → List (String × ℚ) → ℚ := fun _ _ => 0

/-- Witness for C8: "catboost" has no search space; a one-trial study reports a
zero objective, fits nothing, and completes with empty best parameters. -/
theorem claim_C8_witness :
    objective "catboost" "classification" cvMeanW (samplerW 0) =
      some ⟨0, [], none⟩ ∧
    optimize_hyperparameters "catboost" "classification" cvMeanW samplerW 1 =
      some [] :=
  have h := claim_C8 "catboost" "classification" cvMeanW samplerW 1
    (by decide) (by decide)
  ⟨h.1 (samplerW 0), h.2⟩

/-- The number of missing entries of a column (`series.isnull().sum()`). -/
def missingCount (c : Column) : Nat :=
  (c.cells.filter (fun cell => cell.isNone)).length

/-- The drop condition of step 1 of `preprocess_data`: the column's missing
fraction strictly exceeds `missing_threshold`. On a zero-row frame pandas
compares `NaN > threshold`, which is false; hence the length guard. -/
def shouldDrop (missing_threshold : ℚ) (c : Column) : Bool :=
  c.cells.length != 0 &&
    decide (missing_threshold < (missingCount c : ℚ) / (c.cells.length : ℚ))

/-- The `cols_to_drop` list of step 1 of `preprocess_data`: labels of columns
whose missing fraction exceeds the threshold, in frame order. -/
def colsToDrop (df : DataFrame) (missing_threshold : ℚ) : List String :=
  (df.cols.filter (shouldDrop missing_threshold)).map Column.name

/-- `cols_to_drop` after the target guard: `cols_to_drop.remove(target_column)`
removes one occurrence when the target is listed. -/
def keptToDrop (df : DataFrame) (target_column : String)
    (missing_threshold : ℚ) : List String :=
  if target_column ∈ colsToDrop df missing_threshold then
    (colsToDrop df missing_threshold).erase target_column
  else colsToDrop df missing_threshold

/-- Step 1 of `preprocess_data` (lines 89-94): collect the labels of columns
with excessive missingness, remove the target label from that list if present,
then drop the listed columns. -/
def dropExcessMissing (df : DataFrame) (target_column : String)
    (missing_threshold : ℚ) : DataFrame :=
  ⟨df.cols.filter (fun c =>
      decide (c.name ∉ keptToDrop df target_column missing_threshold))⟩

/-- A comparison key on cell values mirroring the sort pandas applies inside
`Series.mode()` (ties in frequency are resolved by taking the smallest value);
the cross-kind ordering is arbitrary, as mixed-kind columns would make the
source's sort raise. -/
def Val.rank : Val → Nat
  | Val.ninf => 0
  | Val.num _ => 1
  | Val.pinf => 2
  | Val.str _ => 3

def Val.ltB : Val → Val → Bool := fun a b =>
  if a.rank ≠ b.rank then decide (a.rank < b.rank)
  else
    match a, b with
    | Val.num x, Val.num y => decide (x < y)
    | Val.str x, Val.str y => decide (x < y)
    | _, _ => false

/-- `series.mode()[0]` (`none` when the mode is empty, i.e. no non-missing
values): the most frequent non-missing value, smallest first on ties. -/
def modeVal (cells : List (Option Val)) : Option Val :=
  let vs := cells.filterMap id
  let counted := vs.dedup.map (fun v => (v, vs.count v))
  (counted.foldl
      (fun best p =>
        match best with
        | none => some p
        | some b =>
          if b.2 < p.2 ∨ (b.2 = p.2 ∧ Val.ltB p.1 b.1 = true) then some p
          else some b)
      none).map (fun p => p.1)

/-- A numeric cell value as `Series.median()` orders it. -/
inductive NumV
  | ninf
  | fin (q : ℚ)
  | pinf
deriving DecidableEq

def Val.toNumV : Val → Option NumV
  | Val.num q => some (NumV.fin q)
  | Val.pinf => some NumV.pinf
  | Val.ninf => some NumV.ninf
  | Val.str _ => none

def NumV.leB : NumV → NumV → Bool
  | NumV.ninf, _ => true
  | _, NumV.pinf => true
  | NumV.fin a, NumV.fin b => decide (a ≤ b)
  | _, _ => false

def insertNumAsc (x : NumV) : List NumV → List NumV
  | [] => [x]
  | y :: t => if NumV.leB x y then x :: y :: t else y :: insertNumAsc x t

def sortNumAsc (l : List NumV) : List NumV :=
  l.foldr insertNumAsc []

/-- The mean of the two middle elements, with IEEE semantics on infinities
(`(inf + (-inf)) / 2` is `NaN`, modelled by `none`). -/
def NumV.avg : NumV → NumV → Option NumV
  | NumV.fin a, NumV.fin b => some (NumV.fin ((a + b) / 2))
  | NumV.pinf, NumV.ninf => none
  | NumV.ninf, NumV.pinf => none
  | NumV.pinf, _ => some NumV.pinf
  | _, NumV.pinf => some NumV.pinf
  | NumV.ninf, _ => some NumV.ninf
  | _, NumV.ninf => some NumV.ninf

def NumV.toVal : NumV → Val
  | NumV.fin q => Val.num q
  | NumV.pinf => Val.pinf
  | NumV.ninf => Val.ninf

/-- `series.median()` skipping missing entries; `none` when there are no
numeric values (an all-missing column's median is `NaN`, so its `fillna`
changes nothing). -/
def medianCells (cells : List (Option Val)) : Option Val :=
  let xs := sortNumAsc ((cells.filterMap id).filterMap Val.toNumV)
  if xs.length = 0 then none
  else
    ((xs.getD ((xs.length - 1) / 2) (NumV.fin 0)).avg
        (xs.getD (xs.length / 2) (NumV.fin 0))).map NumV.toVal

/-- Step 2 of `preprocess_data` (lines 96-101), per column: object/category
columns fill missing entries with the mode (or the literal "Unknown" when the
mode is empty); numeric columns fill with the median. -/
def fillColumn (c : Column) : Column :=
  if c.dtype = Dtype.object ∨ c.dtype = Dtype.category then
    let fillVal := (modeVal c.cells).getD (Val.str "Unknown")
    ⟨c.name, c.dtype, c.cells.map (fun cell => some (cell.getD fillVal))⟩
  else
    match medianCells c.cells with
    | none => c
    | some m => ⟨c.name, c.dtype, c.cells.map (fun cell => some (cell.getD m))⟩

def fillMissing (df : DataFrame) : DataFrame :=
  ⟨df.cols.map fillColumn⟩

/-- `series.astype(str)` on one cell: missing entries print as "nan"; the
Python float repr of a finite value is abstracted by an exact rational
rendering (only its injectivity matters to the encoder). -/
def cellToStr : Option Val → String
  | none => "nan"
  | some (Val.str s) => s
  | some (Val.num q) => toString q.num ++ "/" ++ toString q.den
  | some Val.pinf => "inf"
  | some Val.ninf => "-inf"

def insertStrAsc (s : String) : List String → List String
  | [] => [s]
  | x :: t => if s ≤ x then s :: x :: t else x :: insertStrAsc s t

/-- `LabelEncoder().fit(...).classes_`: the distinct strings in sorted order. -/
def sortedClasses (strs : List String) : List String :=
  strs.dedup.foldr insertStrAsc []

/-- Encode one column in place with a freshly fitted label encoder
(`df[col] = le.fit_transform(df[col].astype(str))`); the resulting column holds
small integers and hence has numeric dtype. Returns the updated frame and the
encoder's classes. -/
def encodeColumn (df : DataFrame) (name : String) : DataFrame × List String :=
  match df.getCol name with
  | none => (df, [])
  | some col =>
    let strs := col.cells.map cellToStr
    let classes := sortedClasses strs
    let newCells := strs.map (fun s => some (Val.num (classes.indexOf s : ℚ)))
    (⟨df.cols.map (fun c =>
        if c.name == name then ⟨c.name, Dtype.numeric, newCells⟩ else c)⟩,
     classes)

/-- The categorical-column set of step 3: caller-supplied, or auto-detected
from the object/category dtypes of the current frame. -/
def resolveCategoricalColumns (df : DataFrame)
    (categorical_columns : Option (List String)) : List String :=
  match categorical_columns with
  | some l => l
  | none =>
    (df.cols.filter (fun c =>
        decide (c.dtype = Dtype.object ∨ c.dtype = Dtype.category))).map
      Column.name

/-- The loop of step 3: each listed column that exists in the frame and is not
the target is label-encoded, and its fitted encoder recorded in order. -/
def encodeFold (df : DataFrame) (target_column : String) :
    List String → DataFrame × List (String × List String)
  | [] => (df, [])
  | col :: rest =>
    if (df.getCol col).isSome ∧ col ≠ target_column then
      let enc := encodeColumn df col
      let next := encodeFold enc.1 target_column rest
      (next.1, (col, enc.2) :: next.2)
    else encodeFold df target_column rest

def encodeCategoricals (df : DataFrame) (target_column : String)
    (categorical_columns : Option (List String)) :
    DataFrame × List (String × List String) :=
  encodeFold df target_column (resolveCategoricalColumns df categorical_columns)

/-- The auto-detected branch of the numeric-column set of step 4: the labels of
numeric-dtype columns, with the target removed
(`numerical_columns.remove(target_column)`) when present. -/
def autoNumericalColumns (df : DataFrame) (target_column : String) : List String :=
  if target_column ∈
      (df.cols.filter (fun c => c.dtype == Dtype.numeric)).map Column.name then
    ((df.cols.filter (fun c => c.dtype == Dtype.numeric)).map
        Column.name).erase target_column
  else (df.cols.filter (fun c => c.dtype == Dtype.numeric)).map Column.name

/-- The numeric-column set of step 4 (lines 115-118): caller-supplied and used
as-is, or auto-detected. -/
def selectNumericalColumns (df : DataFrame) (target_column : String)
    (numerical_columns : Option (List String)) : List String :=
  match numerical_columns with
  | some l => l
  | none => autoNumericalColumns df target_column

/-- The fitted `StandardScaler` as returned by `preprocess_data`: the columns
it was fit on (`feature_names_in_`), their means and their scales. An unfitted
scaler (no numeric columns selected) carries empty lists. -/
structure Scaler where
  columns : List String
  mean_ : List ℚ
  scale_ : List ℚ
deriving DecidableEq

/-- `df[ncols].replace([inf, -inf], nan).fillna(0)` on one cell. -/
def replaceInfFillZero (cells : List (Option Val)) : List (Option Val) :=
  cells.map fun c =>
    match c with
    | some Val.pinf => some (Val.num 0)
    | some Val.ninf => some (Val.num 0)
    | none => some (Val.num 0)
    | some v => some v

def Val.toQ : Val → Option ℚ
  | Val.num q => some q
  | _ => none

/-- An executable floor-style square root on `ℕ`. -/
def natSqrt (n : Nat) : Nat :=
  ((List.range (n + 1)).filter (fun k => k * k ≤ n)).foldr max 0

/-- A rational square-root approximation standing in for the floating-point
square root inside `StandardScaler` (float sqrt is itself inexact; no claim
depends on the scaled values). -/
def ratSqrt (q : ℚ) : ℚ :=
  (natSqrt q.num.toNat : ℚ) / (natSqrt q.den : ℚ)

/-- Fit the scaler on one selected column: `none` models the `KeyError` on a
missing label or the `ValueError` scikit-learn raises on non-numeric content or
zero rows. Yields the column's mean and scale (scale 1 when the variance is 0,
as scikit-learn guards division by zero). -/
def fitColumn (df : DataFrame) (name : String) : Option (String × ℚ × ℚ) := do
  let col ← df.getCol name
  let qs ← (replaceInfFillZero col.cells).mapM (fun c => c.bind Val.toQ)
  if qs.length = 0 then none
  else
    let m := qs.sum / (qs.length : ℚ)
    let v := (qs.map (fun x => (x - m) ^ 2)).sum / (qs.length : ℚ)
    some (name, m, if v = 0 then 1 else ratSqrt v)

/-- Standardize one column with its fitted mean and scale; the stored result is
float, hence numeric dtype. -/
def transformColumn (c : Column) (m s : ℚ) : Column :=
  ⟨c.name, Dtype.numeric,
    (replaceInfFillZero c.cells).map (fun cell =>
      cell.map (fun v =>
        match v with
        | Val.num q => Val.num ((q - m) / s)
        | other => other))⟩

/-- Step 4 of `preprocess_data` (lines 120-125): skipped entirely when the
selected set is empty (`if numerical_columns:`), leaving the scaler unfitted;
otherwise replace infinities, fill residual missing entries with zero, fit the
shared scaler on all selected columns and apply it in place. -/
def scaleStep (df : DataFrame) (ncols : List String) :
    Option (DataFrame × Scaler) :=
  if ncols.isEmpty then some (df, ⟨[], [], []⟩)
  else do
    let fits ← ncols.mapM (fitColumn df)
    some
      (⟨df.cols.map (fun c =>
          match fits.find? (fun f => f.1 == c.name) with
          | some f => transformColumn c f.2.1 f.2.2
          | none => c)⟩,
       ⟨ncols, fits.map (fun f => f.2.1), fits.map (fun f => f.2.2)⟩)

/-- Steps 1-3 of `preprocess_data` chained: drop over-missing columns (target
excepted), fill missing values, label-encode categoricals. Yields the frame
`df_processed` as it stands at line 114 together with the label encoders. -/
def preprocessEncoded (df : DataFrame) (target_column : String)
    (categorical_columns : Option (List String)) (missing_threshold : ℚ) :
    DataFrame × List (String × List String) :=
  encodeCategoricals
    (fillMissing (dropExcessMissing df target_column missing_threshold))
    target_column categorical_columns

/-- `MLService.preprocess_data(df, target_column, categorical_columns,
numerical_columns, missing_threshold)`: drop over-missing columns (target
excepted), fill missing values, label-encode categoricals, then standardize the
selected numeric columns. Returns the processed frame, the label encoders and
the scaler; `none` models an exception escaping the scaling step. -/
def preprocess_data (df : DataFrame) (target_column : String)
    (categorical_columns numerical_columns : Option (List String))
    (missing_threshold : ℚ) :
    Option (DataFrame × List (String × List String) × Scaler) :=
  match scaleStep
      (preprocessEncoded df target_column categorical_columns missing_threshold).1
      (selectNumericalColumns
        (preprocessEncoded df target_column categorical_columns missing_threshold).1
        target_column numerical_columns) with
  | none => none
  | some r =>
    some (r.1,
      (preprocessEncoded df target_column categorical_columns missing_threshold).2,
      r.2)

theorem fillColumn_name (c : Column) : (fillColumn c).name = c.name := by
  unfold fillColumn
  split_ifs
  · rfl
  · cases medianCells c.cells <;> rfl

theorem fillMissing_names (df : DataFrame) : (fillMissing df).names = df.names := by
  unfold fillMissing DataFrame.names
  simp only [List.map_map]
  exact List.map_congr_left (fun c _ => fillColumn_name c)

theorem encodeColumn_names (df : DataFrame) (name : String) :
    (encodeColumn df name).1.names = df.names := by
  unfold encodeColumn
  cases h : df.getCol name with
  | none => rfl
  | some col =>
    simp only [DataFrame.names, List.map_map]
    refine List.map_congr_left (fun c _ => ?_)
    simp only [Function.comp_apply]
    split_ifs <;> rfl

theorem encodeFold_names (target_column : String) :
    ∀ (l : List String) (df : DataFrame),
      ((encodeFold df target_column l).1).names = df.names := by
  intro l
  induction l with
  | nil => intro df; rfl
  | cons c rest ih =>
    intro df
    unfold encodeFold
    split_ifs with h
    · simp only []
      rw [ih (encodeColumn df c).1, encodeColumn_names]
    · exact ih df

theorem transformColumn_name (c : Column) (m s : ℚ) :
    (transformColumn c m s).name = c.name := rfl

theorem scaleStep_names (df : DataFrame) (ncols : List String)
    (df2 : DataFrame) (sc : Scaler) (h : scaleStep df ncols = some (df2, sc)) :
    df2.names = df.names := by
  unfold scaleStep at h
  split_ifs at h with he
  · simp only [Option.some.injEq, Prod.mk.injEq] at h
    rw [← h.1]
  · cases hfit : ncols.mapM (fitColumn df) with
    | none => rw [hfit] at h; exact Option.noConfusion h
    | some fits =>
      rw [hfit] at h
      simp only [Option.bind_eq_bind, Option.some_bind, Option.some.injEq,
        Prod.mk.injEq] at h
      rw [← h.1]
      unfold DataFrame.names
      simp only [List.map_map]
      refine List.map_congr_left (fun c _ => ?_)
      simp only [Function.comp_apply]
      cases hfind : fits.find? (fun f => f.1 == c.name) with
      | none => rfl
      | some f => rfl

theorem scaleStep_columns (df : DataFrame) (ncols : List String)
    (df2 : DataFrame) (sc : Scaler) (h : scaleStep df ncols = some (df2, sc)) :
    sc.columns = ncols := by
  unfold scaleStep at h
  split_ifs at h with he
  · simp only [Option.some.injEq, Prod.mk.injEq] at h
    rw [← h.2, List.isEmpty_iff.mp he]
  · cases hfit : ncols.mapM (fitColumn df) with
    | none => rw [hfit] at h; exact Option.noConfusion h
    | some fits =>
      rw [hfit] at h
      simp only [Option.bind_eq_bind, Option.some_bind, Option.some.injEq,
        Prod.mk.injEq] at h
      rw [← h.2]

theorem colsToDrop_nodup (df : DataFrame) (t : ℚ) (hnodup : df.names.Nodup) :
    (colsToDrop df t).Nodup :=
  hnodup.sublist ((List.filter_sublist df.cols).map Column.name)

theorem target_not_mem_keptToDrop (df : DataFrame) (target_column : String)
    (t : ℚ) (hnodup : df.names.Nodup) :
    target_column ∉ keptToDrop df target_column t := by
  unfold keptToDrop
  split_ifs with hmem
  · exact (colsToDrop_nodup df t hnodup).not_mem_erase
  · exact hmem

theorem mem_keptToDrop_of_ne (df : DataFrame) (target_column : String) (t : ℚ)
    (a : String) (ha : a ≠ target_column) (hmem : a ∈ colsToDrop df t) :
    a ∈ keptToDrop df target_column t := by
  unfold keptToDrop
  split_ifs with h
  · exact (List.mem_erase_of_ne ha).mpr hmem
  · exact hmem

theorem dropExcessMissing_names_sublist (df : DataFrame) (target_column : String)
    (t : ℚ) : (dropExcessMissing df target_column t).names.Sublist df.names :=
  (List.filter_sublist df.cols).map Column.name

theorem preprocessEncoded_names (df : DataFrame) (target_column : String)
    (cat : Option (List String)) (t : ℚ) :
    (preprocessEncoded df target_column cat t).1.names =
      (dropExcessMissing df target_column t).names := by
  unfold preprocessEncoded encodeCategoricals
  exact (encodeFold_names target_column _ _).trans (fillMissing_names _)

/-- The column labels of the frame returned by `preprocess_data` are exactly
those surviving the excess-missingness pruning step: filling, encoding and
scaling rename nothing. -/
theorem preprocess_names (df : DataFrame) (target_column : String)
    (cat num : Option (List String)) (t : ℚ)
    (res : DataFrame × List (String × List String) × Scaler)
    (hres : preprocess_data df target_column cat num t = some res) :
    res.1.names = (dropExcessMissing df target_column t).names := by
  unfold preprocess_data at hres
  cases hs : scaleStep (preprocessEncoded df target_column cat t).1
      (selectNumericalColumns (preprocessEncoded df target_column cat t).1
        target_column num) with
  | none => rw [hs] at hres; exact Option.noConfusion hres
  | some r =>
    rw [hs] at hres
    simp only [Option.some.injEq] at hres
    rw [← hres]
    exact (scaleStep_names _ _ r.1 r.2 hs).trans
      (preprocessEncoded_names df target_column cat t)

/-- The columns the returned scaler was fit on are exactly the numeric-column
selection of step 4, computed on the post-encoding frame. -/
theorem preprocess_scaler_columns (df : DataFrame) (target_column : String)
    (cat num : Option (List String)) (t : ℚ)
    (res : DataFrame × List (String × List String) × Scaler)
    (hres : preprocess_data df target_column cat num t = some res) :
    res.2.2.columns = selectNumericalColumns
      (preprocessEncoded df target_column cat t).1 target_column num := by
  unfold preprocess_data at hres
  cases hs : scaleStep (preprocessEncoded df target_column cat t).1
      (selectNumericalColumns (preprocessEncoded df target_column cat t).1
        target_column num) with
  | none => rw [hs] at hres; exact Option.noConfusion hres
  | some r =>
    rw [hs] at hres
    simp only [Option.some.injEq] at hres
    rw [← hres]
    exact scaleStep_columns _ _ r.1 r.2 hs

/-- C1. Under distinct column labels, the excess-missingness pruning step of
`preprocess_data` (i) keeps every column named like the target, whatever its
missing fraction — even 100% missing; (ii) drops every non-target column whose
missing fraction exceeds `missing_threshold`; and consequently (iii) whenever
`preprocess_data` returns, the target label is still among the returned frame's
columns. -/
theorem claim_C1 (df : DataFrame) (target_column : String) (missing_threshold : ℚ)
    (hnodup : df.names.Nodup) :
    (∀ c ∈ df.cols, c.name = target_column →
        c ∈ (dropExcessMissing df target_column missing_threshold).cols) ∧
    (∀ c ∈ df.cols, c.name ≠ target_column → c.cells.length ≠ 0 →
        missing_threshold < (missingCount c : ℚ) / (c.cells.length : ℚ) →
        c ∉ (dropExcessMissing df target_column missing_threshold).cols) ∧
    (∀ (cat num : Option (List String))
        (res : DataFrame × List (String × List String) × Scaler),
        preprocess_data df target_column cat num missing_threshold = some res →
        target_column ∈ df.names → target_column ∈ res.1.names) := by
  have hkept := target_not_mem_keptToDrop df target_column missing_threshold hnodup
  have hconj1 : ∀ c ∈ df.cols, c.name = target_column →
      c ∈ (dropExcessMissing df target_column missing_threshold).cols := by
    intro c hc hname
    unfold dropExcessMissing
    refine List.mem_filter.mpr ⟨hc, ?_⟩
    rw [decide_eq_true_eq, hname]
    exact hkept
  refine ⟨hconj1, ?_, ?_⟩
  · intro c hc hname hnz hfrac hmem
    have hdrop : shouldDrop missing_threshold c = true := by
      unfold shouldDrop
      rw [Bool.and_eq_true]
      exact ⟨bne_iff_ne.mpr hnz, decide_eq_true hfrac⟩
    have hin : c.name ∈ colsToDrop df missing_threshold :=
      List.mem_map.mpr ⟨c, List.mem_filter.mpr ⟨hc, hdrop⟩, rfl⟩
    have hin2 := mem_keptToDrop_of_ne df target_column missing_threshold
      c.name hname hin
    have hnot := (List.mem_filter.mp hmem).2
    rw [decide_eq_true_eq] at hnot
    exact hnot hin2
  · intro cat num res hres htgt
    rw [preprocess_names df target_column cat num missing_threshold res hres]
    obtain ⟨c, hc, hcname⟩ := List.mem_map.mp htgt
    exact List.mem_map.mpr ⟨c, hconj1 c hc hcname, hcname⟩

def colAW : Column := ⟨"a", Dtype.numeric, [none, none]⟩

def colYW : Column := ⟨"y", Dtype.numeric, [none, none]⟩

def colBW : Column := ⟨"b", Dtype.numeric, [some (Val.num 5), some (Val.num 7)]⟩

/-- A frame whose target "y" is 100% missing, with another 100%-missing column
"a" and a complete column "b". -/
def dfDropW : DataFrame := ⟨[colAW, colYW, colBW]⟩

/-- The full output of `preprocess_data` on `dfDropW`: "a" dropped, the
all-missing target kept (its median fill is a no-op), "b" standardized. -/
def resDropW : DataFrame × List (String × List String) × Scaler :=
  (⟨[⟨"y", Dtype.numeric, [none, none]⟩,
     ⟨"b", Dtype.numeric, [some (Val.num (-1)), some (Val.num 1)]⟩]⟩,
   [],
   ⟨["b"], [6], [1]⟩)

/-- Witness for C1: the 100%-missing target survives the pruning step, the
100%-missing non-target column "a" is dropped, and the returned frame still
carries the target label. -/
theorem claim_C1_witness :
    colYW ∈ (dropExcessMissing dfDropW "y" (3/10)).cols ∧
    colAW ∉ (dropExcessMissing dfDropW "y" (3/10)).cols ∧
    preprocess_data dfDropW "y" none none (3/10) = some resDropW ∧
    "y" ∈ resDropW.1.names := by
  have h := claim_C1 dfDropW "y" (3/10) (by decide)
  exact ⟨h.1 colYW (by decide) rfl,
         h.2.1 colAW (by decide) (by decide) (by decide)
           (by with_unfolding_all decide),
         by with_unfolding_all decide,
         h.2.2 none none resDropW (by with_unfolding_all decide) (by decide)⟩

/-- A frame with a numeric feature "x" and a numeric target "y". -/
def exDfC6 : DataFrame :=
  ⟨[⟨"x", Dtype.numeric, [some (Val.num 1), some (Val.num 3)]⟩,
    ⟨"y", Dtype.numeric, [some (Val.num 0), some (Val.num 1)]⟩]⟩

/-- `preprocess_data(exDfC6, "y", numerical_columns=["y"])`: the caller-supplied
selection is used as-is, so the target itself is standardized. -/
def resC6supplied : DataFrame × List (String × List String) × Scaler :=
  (⟨[⟨"x", Dtype.numeric, [some (Val.num 1), some (Val.num 3)]⟩,
     ⟨"y", Dtype.numeric, [some (Val.num (-1)), some (Val.num 1)]⟩]⟩,
   [],
   ⟨["y"], [1/2], [1/2]⟩)

/-- `preprocess_data(exDfC6, "y")` with auto-detected numeric columns: the
target is excluded and only "x" is standardized. -/
def resC6auto : DataFrame × List (String × List String) × Scaler :=
  (⟨[⟨"x", Dtype.numeric, [some (Val.num (-1)), some (Val.num 1)]⟩,
     ⟨"y", Dtype.numeric, [some (Val.num 0), some (Val.num 1)]⟩]⟩,
   [],
   ⟨["x"], [2], [1]⟩)

/-- Counterexample to C6 as stated: when the caller supplies
`numerical_columns = ["y"]` containing the target, the set of columns selected
for infinite-value replacement and standard scaling is exactly `["y"]` — the
target is scaled, contradicting the claim that the selection always excludes
the target. (Only the auto-detect branch of lines 115-118 removes the target.) -/
theorem claim_C6_counterexample :
    preprocess_data exDfC6 "y" none (some ["y"]) (3/10) = some resC6supplied ∧
    "y" ∈ resC6supplied.2.2.columns := by
  exact ⟨by with_unfolding_all decide, by decide⟩

/-- C6 (amended). Under distinct column labels, the set of columns selected for
infinite-value replacement and standard scaling excludes the target whenever
`numerical_columns` is auto-detected (`None`); when the caller supplies
`numerical_columns` explicitly the selection is exactly the supplied list,
which is used as-is and may include the target. -/
theorem claim_C6_amended (df : DataFrame) (target_column : String)
    (cat : Option (List String)) (missing_threshold : ℚ)
    (hnodup : df.names.Nodup) :
    (∀ res : DataFrame × List (String × List String) × Scaler,
        preprocess_data df target_column cat none missing_threshold = some res →
        target_column ∉ res.2.2.columns) ∧
    (∀ (l : List String) (res : DataFrame × List (String × List String) × Scaler),
        preprocess_data df target_column cat (some l) missing_threshold = some res →
        res.2.2.columns = l) := by
  constructor
  · intro res hres
    rw [preprocess_scaler_columns df target_column cat none missing_threshold res hres]
    have hXnodup :
        (preprocessEncoded df target_column cat missing_threshold).1.names.Nodup := by
      rw [preprocessEncoded_names df target_column cat missing_threshold]
      exact hnodup.sublist
        (dropExcessMissing_names_sublist df target_column missing_threshold)
    show target_column ∉ autoNumericalColumns
      (preprocessEncoded df target_column cat missing_threshold).1 target_column
    unfold autoNumericalColumns
    have hnd : (((preprocessEncoded df target_column cat
        missing_threshold).1.cols.filter
          (fun c => c.dtype == Dtype.numeric)).map Column.name).Nodup :=
      hXnodup.sublist ((List.filter_sublist _).map Column.name)
    split_ifs with hmem
    · exact hnd.not_mem_erase
    · exact hmem
  · intro l res hres
    rw [preprocess_scaler_columns df target_column cat (some l) missing_threshold res hres]
    rfl

/-- Witness for the amended C6: on `exDfC6`, auto-detection selects only "x"
(the target "y" is excluded), while the caller-supplied list `["y"]` is used
verbatim. -/
theorem claim_C6_witness :
    preprocess_data exDfC6 "y" none none (3/10) = some resC6auto ∧
    "y" ∉ resC6auto.2.2.columns ∧
    resC6supplied.2.2.columns = ["y"] := by
  have h := claim_C6_amended exDfC6 "y" none (3/10) (by decide)
  exact ⟨by with_unfolding_all decide,
         h.1 resC6auto (by with_unfolding_all decide),
         h.2 ["y"] resC6supplied (by with_unfolding_all decide)⟩

end AutoML
